import Mathlib

/-!
Verification of the Financial Analytics Engine
(`src/controllers/analyticsController.js`).

Each JavaScript function relevant to the claims is shallowly embedded as a
Lean definition over exact rational arithmetic (`ℚ` in place of JS numbers;
the concrete values involved are small integers and terminating decimals, so
the float computations of the source coincide with the rational ones).
Date-window filtering performed by SQL `WHERE` clauses is abstracted by
passing, as an explicit argument, the list of rows that the corresponding
query returns; the grouped/derived columns of each SQL query are reproduced
faithfully from the query text.
-/

set_option maxRecDepth 10000

/-- JS `Math.round`: round half towards positive infinity. -/
def jsRound (q : ℚ) : ℤ := ⌊q + 1/2⌋

/-- JS `Math.round(x * 100) / 100`: round to two decimal places. -/
def jsRound2 (q : ℚ) : ℚ := (jsRound (q * 100) : ℚ) / 100

/-- Digits of a nonnegative number with one decimal place, used by
`jsToFixed1`.  `n` is the value scaled by 10 and rounded. -/
def toFixed1OfNonneg (q : ℚ) : String :=
  let n : ℤ := ⌊q * 10 + 1/2⌋
  toString (n / 10) ++ "." ++ toString (n % 10)

/-- JS `Number.prototype.toFixed(1)`: fixed-point string with one decimal
digit, rounding half away from zero (negative values get a leading minus,
never a plus sign). -/
def jsToFixed1 (q : ℚ) : String :=
  if q < 0 then "-" ++ toFixed1OfNonneg (-q) else toFixed1OfNonneg q

/-- Digits of a nonnegative number with two decimal places, used by
`jsToFixed2`. -/
def toFixed2OfNonneg (q : ℚ) : String :=
  let n : ℤ := ⌊q * 100 + 1/2⌋
  let r := n % 100
  toString (n / 100) ++ "." ++ (if r < 10 then "0" ++ toString r else toString r)

/-- JS `Number.prototype.toFixed(2)`. -/
def jsToFixed2 (q : ℚ) : String :=
  if q < 0 then "-" ++ toFixed2OfNonneg (-q) else toFixed2OfNonneg q

/-- Arithmetic mean of a list (JS `arr.reduce((a,b) => a+b, 0) / arr.length`;
division by zero on the empty list yields `0` in `ℚ`, matching no use site —
every caller guards the length). -/
def listMean (xs : List ℚ) : ℚ := xs.sum / (xs.length : ℚ)

/-- Exact rational square root: `some r` when `q = r * r` with `r ≥ 0`,
otherwise `none`.  Used only to report the value of a SQL `z_score` (a square
root computed in floating point by the store) when that value is exactly
representable; all comparisons in the source are embedded squared instead. -/
def ratSqrt (q : ℚ) : Option ℚ :=
  if 0 ≤ q then
    let sn := Nat.sqrt q.num.toNat
    let sd := Nat.sqrt q.den
    if sn * sn = q.num.toNat ∧ sd * sd = q.den then some ((sn : ℚ) / (sd : ℚ))
    else none
  else none

/-- A transaction row as stored in the `transactions` table (the columns the
analytics queries read).  Dates are abstract day numbers; `type` is
`"income"` or `"expense"` (free-form here, as in the store). -/
structure Txn where
  id : ℕ
  date : ℕ
  type : String
  category : String
  amount : ℚ
  description : String
deriving Repr, DecidableEq, Inhabited

/-- A row of the `budgets` table (the columns the health-score query reads). -/
structure Budget where
  category : String
  amount : ℚ
deriving Repr, DecidableEq, Inhabited

/-- Duplicate removal keeping the FIRST occurrence of each element, in
encounter order — the grouping order SQL `GROUP BY` delivers here and the
insertion order of the JS object literals built by `forEach`. -/
def firstDedupAux : List String → List String → List String
  | _, [] => []
  | seen, x :: xs =>
    if x ∈ seen then firstDedupAux seen xs
    else x :: firstDedupAux (x :: seen) xs

/-- `firstDedup l` lists the distinct elements of `l` in first-occurrence
order. -/
def firstDedup (l : List String) : List String := firstDedupAux [] l

/-! ## Health Scorer (`getFinancialHealthScore`, lines 148–271) -/

/-- The single row produced by the health-score SQL query
(`recent_data CROSS JOIN savings_rate CROSS JOIN budget_adherence`). -/
structure HealthRow where
  total_income : ℚ
  total_expenses : ℚ
  category_diversity : ℕ
  savings_percentage : ℚ
  total_budgets : ℕ
  successful_budgets : ℕ
deriving Repr, DecidableEq, Inhabited

/-- Embedding of the health-score SQL query.  `txns3m` is the set of the
user's transactions in the trailing 3 months (the `recent_data` window),
`budgets` the user's budget rows, and `txnsMonth` the user's transactions
dated in the current calendar month (the window of the `budget_adherence`
join).  Mirrors the query column for column:
income/expense sums via `CASE WHEN type = ...`, `COUNT(DISTINCT category)`
over ALL rows of the window (no type filter in the source query), the
guarded savings percentage, and per-`(category, amount)` budget status
(`GROUP BY b.category, b.amount` collapses duplicate pairs). -/
def healthMetrics (txns3m : List Txn) (budgets : List Budget)
    (txnsMonth : List Txn) : HealthRow :=
  let ti := ((txns3m.filter (fun t => t.type = "income")).map (·.amount)).sum
  let te := ((txns3m.filter (fun t => t.type = "expense")).map (·.amount)).sum
  let groups := (budgets.map (fun b => (b.category, b.amount))).foldl
    (fun acc p => if p ∈ acc then acc else acc ++ [p]) []
  let statuses := groups.map (fun p =>
    decide (((txnsMonth.filter (fun t => t.category = p.1 ∧ t.type = "expense")).map
      (·.amount)).sum ≤ p.2))
  { total_income := ti
    total_expenses := te
    category_diversity := (firstDedup (txns3m.map (·.category))).length
    savings_percentage := if ti > 0 then ((ti - te) / ti) * 100 else 0
    total_budgets := statuses.length
    successful_budgets := (statuses.filter (fun s => s = true)).length }

/-- A health factor (`factors.push({factor, impact, status})`). -/
structure Factor where
  factor : String
  impact : ℤ
  status : String
deriving Repr, DecidableEq, Inhabited

/-- A recommendation object (`recommendations.push({priority, message, action})`). -/
structure Recommendation where
  priority : String
  message : String
  action : String
deriving Repr, DecidableEq, Inhabited

/-- `getHealthGrade` (lines 476–483), verbatim if-chain. -/
def getHealthGrade (score : ℤ) : String :=
  if score ≥ 90 then "A+"
  else if score ≥ 80 then "A"
  else if score ≥ 70 then "B"
  else if score ≥ 60 then "C"
  else if score ≥ 50 then "D"
  else "F"

/-- The emergency-savings recommendation object pushed when `score < 50`
(lines 456–462). -/
def emergencyRec : Recommendation :=
  { priority := "high"
    message := "Focus on building emergency savings"
    action := "Aim to save at least 10% of your income" }

/-- The recommendation object pushed for a found negative factor
(lines 464–471). -/
def improveRec (f : Factor) : Recommendation :=
  { priority := "medium"
    message := "Improve your " ++ f.factor.toLower
    action := "This will significantly boost your financial health score" }

/-- `generateHealthRecommendations` (lines 453–474): an emergency-savings
recommendation when `score < 50`, then a recommendation for the first factor
whose status is `"negative"` (JS `Array.find`), when one exists. -/
def generateHealthRecommendations (score : ℤ) (factors : List Factor) :
    List Recommendation :=
  (if score < 50 then [emergencyRec] else []) ++
  (match factors.find? (fun f => f.status = "negative") with
   | some f => [improveRec f]
   | none => [])

/-- Derived output metrics of the health score (the `metrics` sub-object). -/
structure HealthMetricsOut where
  savings_rate : ℚ
  budget_adherence : ℚ
  category_diversity : ℕ
  monthly_income : ℚ
  monthly_expenses : ℚ
deriving Repr, DecidableEq, Inhabited

/-- Result object of `getFinancialHealthScore`. -/
structure HealthResult where
  overall_score : ℤ
  grade : String
  factors : List Factor
  recommendations : List Recommendation
  metrics : HealthMetricsOut
deriving Repr, DecidableEq, Inhabited

/-- The savings-rate component (lines 206–219): branch on the rate; each
branch's pushed factor has `impact` equal to the points added. -/
def savingsFactor (savingsRate : ℚ) : Factor :=
  if savingsRate ≥ 20 then
    { factor := "Excellent savings rate", impact := 30, status := "positive" }
  else if savingsRate ≥ 10 then
    { factor := "Good savings rate", impact := 20, status := "positive" }
  else if savingsRate ≥ 0 then
    { factor := "Basic savings rate", impact := 10, status := "neutral" }
  else
    { factor := "Negative savings rate", impact := 0, status := "negative" }

/-- `budgetAdherence` (lines 222–224): percentage of budgets met, `0` with
no budgets. -/
def budgetAdherenceOf (total_budgets successful_budgets : ℕ) : ℚ :=
  if total_budgets > 0 then
    ((successful_budgets : ℚ) / (total_budgets : ℚ)) * 100
  else 0

/-- The budget-adherence component (lines 225–231): points are
`Math.round(adherence / 100 * 25)` (= the factor's impact). -/
def budgetFactor (budgetAdherence : ℚ) : Factor :=
  { factor := "Budget adherence"
    impact := jsRound ((budgetAdherence / 100) * 25)
    status := if budgetAdherence ≥ 75 then "positive"
      else if budgetAdherence ≥ 50 then "neutral" else "negative" }

/-- The category-diversity component (lines 234–241): diversity capped at 8,
points `Math.round(min(d, 8) / 8 * 20)`. -/
def diversityFactor (category_diversity : ℕ) : Factor :=
  { factor := "Expense categorization"
    impact := jsRound (((min category_diversity 8 : ℕ) : ℚ) / 8 * 20)
    status := if min category_diversity 8 ≥ 5 then "positive" else "neutral" }

/-- The income-stability component (lines 244–251): flat 25 points when any
income is present. -/
def incomeFactor (total_income : ℚ) : Factor :=
  { factor := "Income stability"
    impact := if total_income > 0 then 25 else 0
    status := if total_income > 0 then "positive" else "negative" }

/-- `getFinancialHealthScore` (lines 200–265), the pure computation applied
to the SQL row.  The four point components are split into the factor
definitions above, exactly mirroring the source blocks (every branch pushes
a factor whose `impact` equals the points added, so the raw score is the sum
of the four impacts); `overall_score` clamps with `Math.min(·, 100)`, while
`grade` and the recommendations receive the unclamped raw score, as in the
source. -/
def getFinancialHealthScore (data : HealthRow) : HealthResult :=
  let savingsRate := data.savings_percentage
  let sF := savingsFactor savingsRate
  let budgetAdherence :=
    budgetAdherenceOf data.total_budgets data.successful_budgets
  let bF := budgetFactor budgetAdherence
  let dF := diversityFactor data.category_diversity
  let iF := incomeFactor data.total_income
  let healthScore := sF.impact + bF.impact + dF.impact + iF.impact
  let factors := [sF, bF, dF, iF]
  { overall_score := min healthScore 100
    grade := getHealthGrade healthScore
    factors := factors
    recommendations := generateHealthRecommendations healthScore factors
    metrics :=
      { savings_rate := savingsRate
        budget_adherence := budgetAdherence
        category_diversity := min data.category_diversity 8
        monthly_income := data.total_income
        monthly_expenses := data.total_expenses } }

/-- Distinct categories among the EXPENSE transactions of a window.  This
follows the SPEC's wording ("trailing-3-month distinct expense-category
count", §4.4) for comparison against the source's `COUNT(DISTINCT category)`,
which imposes no type filter; it is not a translation of the code. -/
def specDistinctExpenseCategories (txns : List Txn) : ℕ :=
  (firstDedup ((txns.filter (fun t => t.type = "expense")).map (·.category))).length

/-! ## Anomaly Detector (`getAnomalyDetection`, lines 273–331)

The SQL computes `z_score = ABS(amount - avg_amount) / NULLIF(std_amount, 0)`
with `std_amount = STDDEV(amount)` (sample standard deviation).  To stay in
exact rational arithmetic the embedding carries the SQUARE of the z-score and
squares both sides of every comparison the source makes (`> 2`, `> 2.5`,
`> 3`, and the descending sort key): since `z ≥ 0` and the bounds are
positive, `z > c ↔ z² > c²`, so the encoding is order-faithful.  A `NULL`
z-score (zero standard deviation) makes the SQL `WHERE`/severity comparisons
false; the embedding encodes this as the explicit conjunct `var ≠ 0`. -/

/-- Sample variance `Σ(x - mean)² / (n - 1)` — the square of Postgres
`STDDEV`.  (For `n ≤ 1` Postgres yields `NULL`; that case is unreachable here
because baselines require `n ≥ 5`, and is mapped to `0`.) -/
def sampleVar (xs : List ℚ) : ℚ :=
  if xs.length ≤ 1 then 0
  else ((xs.map (fun x => (x - listMean xs) ^ 2)).sum) / ((xs.length : ℚ) - 1)

/-- A row of the `category_stats` CTE: per-category mean, variance
(`STDDEV` squared) and count, kept only when `COUNT(*) >= 5` (the `HAVING`
clause). -/
structure CatStat where
  category : String
  avg_amount : ℚ
  var_amount : ℚ
  count : ℕ
deriving Repr, DecidableEq, Inhabited

/-- The `category_stats` CTE over `sixM`, the user's expense transactions of
the trailing 6 months (the CTE's `WHERE` filter). -/
def categoryStats (sixM : List Txn) : List CatStat :=
  (firstDedup (sixM.map (·.category))).filterMap (fun c =>
    let xs := (sixM.filter (fun t => t.category = c)).map (·.amount)
    if 5 ≤ xs.length then
      some { category := c, avg_amount := listMean xs,
             var_amount := sampleVar xs, count := xs.length }
    else none)

/-- The `recent_transactions` CTE: each expense transaction of the trailing
30 days (`thirty`) joined with its category's baseline, dropped when the
category has no baseline (inner `JOIN`). -/
def recentJoined (sixM thirty : List Txn) : List (Txn × CatStat) :=
  thirty.filterMap (fun t =>
    ((categoryStats sixM).find? (fun s => s.category = t.category)).map
      (fun s => (t, s)))

/-- Square of the SQL `z_score` of a joined row:
`(amount - avg_amount)² / var`. -/
def zSq (p : Txn × CatStat) : ℚ :=
  (p.1.amount - p.2.avg_amount) ^ 2 / p.2.var_amount

/-- Insert into a list sorted descending by `key` (stable). -/
def insertDesc (key : Txn × CatStat → ℚ) (x : Txn × CatStat) :
    List (Txn × CatStat) → List (Txn × CatStat)
  | [] => [x]
  | y :: ys => if key y < key x then x :: y :: ys else y :: insertDesc key x ys

/-- Insertion sort, descending by `key` — the `ORDER BY z_score DESC`. -/
def sortDescBy (key : Txn × CatStat → ℚ) (l : List (Txn × CatStat)) :
    List (Txn × CatStat) :=
  l.foldr (insertDesc key) []

/-- The rows the anomaly SQL statement returns: flagged
(`WHERE z_score > 2`, i.e. `var ≠ 0 ∧ z² > 4`), sorted descending by
z-score, `LIMIT 10`. -/
def anomalyRows (sixM thirty : List Txn) : List (Txn × CatStat) :=
  ((sortDescBy zSq ((recentJoined sixM thirty).filter
    (fun p => p.2.var_amount ≠ 0 ∧ zSq p > 4))).take 10)

/-- An element of `unusual_transactions`: the SQL columns spread together
with the added `severity` and `deviation_percentage`.  `z_sq` is the squared
z-score (see the section comment); `z_score` reports the exact value of the
SQL column when it is a rational square root. -/
structure AnomalyEntry where
  id : ℕ
  date : ℕ
  category : String
  amount : ℚ
  description : String
  avg_amount : ℚ
  z_sq : ℚ
  z_score : Option ℚ
  severity : String
  deviation_percentage : String
deriving Repr, DecidableEq, Inhabited

/-- The `anomalies.map(...)` enrichment (lines 316–320): severity tiers
`z > 3` / `z > 2.5` (squared: `9`, `25/4`) and
`((amount - avg) / avg * 100).toFixed(1)`. -/
def enrichAnomaly (p : Txn × CatStat) : AnomalyEntry :=
  { id := p.1.id
    date := p.1.date
    category := p.1.category
    amount := p.1.amount
    description := p.1.description
    avg_amount := p.2.avg_amount
    z_sq := zSq p
    z_score := ratSqrt (zSq p)
    severity := if zSq p > 9 then "high"
      else if zSq p > 25/4 then "medium" else "low"
    deviation_percentage :=
      jsToFixed1 ((p.1.amount - p.2.avg_amount) / p.2.avg_amount * 100) }

/-- The `summary` object. -/
structure AnomalySummary where
  total_anomalies : ℕ
  high_severity_count : ℕ
deriving Repr, DecidableEq, Inhabited

/-- Result of `getAnomalyDetection`. -/
structure AnomalyResult where
  unusual_transactions : List AnomalyEntry
  summary : AnomalySummary
deriving Repr, DecidableEq, Inhabited

/-- `getAnomalyDetection` (lines 273–331), pure part: builds
`unusual_transactions` by enriching each returned row, `total_anomalies` as
the row count and `high_severity_count` by filtering the SAME (limited) row
list for `z_score > 3` (squared: `> 9`). -/
def getAnomalyDetection (sixM thirty : List Txn) : AnomalyResult :=
  let anomalies := anomalyRows sixM thirty
  { unusual_transactions := anomalies.map enrichAnomaly
    summary :=
      { total_anomalies := anomalies.length
        high_severity_count := (anomalies.filter (fun p => zSq p > 9)).length } }

/-! ## Trend Predictor (`getPredictiveInsights`, lines 93–146) -/

/-- `calculateTrend` (lines 393–402): ordinary-least-squares slope over
`x = 1..n` in the ORDER THE VALUES ARE GIVEN; `0` for fewer than two
points. -/
def calculateTrend (values : List ℚ) : ℚ :=
  if values.length < 2 then 0
  else
    let n : ℚ := values.length
    let sumX := (n * (n + 1)) / 2
    let sumY := values.sum
    let sumXY := (values.enum.map (fun p => ((p.1 : ℚ) + 1) * p.2)).sum
    let sumX2 := (n * (n + 1) * (2 * n + 1)) / 6
    (n * sumXY - sumX * sumY) / (n * sumX2 - sumX * sumX)

/-- Exact test for `Math.sqrt(variance) / mean < c` (`c > 0`) without leaving
`ℚ`: for `mean > 0` square both sides (`variance ≥ 0` always, being a sum of
squares); for `mean < 0` the left side is `≤ 0 < c`; for `mean = 0` the JS
division yields `Infinity` or `NaN`, and either compares false. -/
def cvLt (variance mean c : ℚ) : Bool :=
  if mean > 0 then variance < c ^ 2 * mean ^ 2
  else if mean < 0 then true
  else false

/-- `calculateConfidence` (lines 404–416): population variance, coefficient
of variation `sqrt(variance) / mean` compared against `0.3` and `0.6` (via
`cvLt`). -/
def calculateConfidence (values : List ℚ) : String :=
  if values.length < 3 then "low"
  else
    let variance :=
      ((values.map (fun v => (v - listMean values) ^ 2)).sum) / (values.length : ℚ)
    if cvLt variance (listMean values) (3/10) then "high"
    else if cvLt variance (listMean values) (6/10) then "medium"
    else "low"

/-- A row of the predictive-insights SQL query, which the store returns
ordered by `month DESC` (most recent month first); the source trusts and
keeps this row order. -/
structure PredictRow where
  month : String
  category : String
  monthly_spending : ℚ
deriving Repr, DecidableEq, Inhabited

/-- A per-category prediction object. -/
structure Prediction where
  predicted_amount : ℚ
  confidence : String
  trend : String
deriving Repr, DecidableEq, Inhabited

/-- A warning from `generatePredictionRecommendations`. -/
structure PredRecommendation where
  type : String
  category : String
  message : String
  action : String
deriving Repr, DecidableEq, Inhabited

/-- The per-category pipeline of `getPredictiveInsights` for a category's
amount list (in row order, i.e. month-descending): only with ≥ 3 points,
slope via `calculateTrend`, forecast `max(0, mean + slope)` rounded to two
decimals, trend sign label. -/
def predictionOfAmounts (amounts : List ℚ) : Option Prediction :=
  if 3 ≤ amounts.length then
    let trend := calculateTrend amounts
    let avgSpending := listMean amounts
    let nextMonthPrediction := max 0 (avgSpending + trend)
    some { predicted_amount := jsRound2 nextMonthPrediction
           confidence := calculateConfidence amounts
           trend := if trend > 0 then "increasing"
             else if trend < 0 then "decreasing" else "stable" }
  else none

/-- `generatePredictionRecommendations` (lines 436–451). -/
def generatePredictionRecommendations
    (predictions : List (String × Prediction)) : List PredRecommendation :=
  predictions.filterMap (fun cp =>
    if cp.2.trend = "increasing" ∧ cp.2.predicted_amount > 200 then
      some { type := "warning"
             category := cp.1
             message := cp.1 ++ " spending is predicted to increase"
             action := "Consider setting a budget limit for " ++ cp.1 }
    else none)

/-- Result of `getPredictiveInsights`; the predictions map is a list of
(category, prediction) pairs in JS-object insertion order (first encounter
of each category in row order). -/
structure PredictResult where
  next_month_predictions : List (String × Prediction)
  total_predicted_spending : ℚ
  recommendations : List PredRecommendation
deriving Repr, DecidableEq, Inhabited

/-- `getPredictiveInsights` (lines 93–146), pure part.  `rows` is the query
result in delivered order (`ORDER BY month DESC`); `categoryTrends` groups
each category's amounts in row order and predictions are emitted per
category in first-encounter order. -/
def getPredictiveInsights (rows : List PredictRow) : PredictResult :=
  let amountsOf := fun c =>
    (rows.filter (fun r => r.category = c)).map (·.monthly_spending)
  let predictions := (firstDedup (rows.map (·.category))).filterMap (fun c =>
    (predictionOfAmounts (amountsOf c)).map (fun p => (c, p)))
  { next_month_predictions := predictions
    total_predicted_spending := (predictions.map (·.2.predicted_amount)).sum
    recommendations := generatePredictionRecommendations predictions }

/-! ## Pattern Analyzer (`getSpendingPatterns`, lines 40–91) -/

/-- A row of the weekly-pattern query (grouped by day of week). -/
structure PatternRow where
  day_of_week : ℕ
  avg_daily_spending : ℚ
  transaction_count : ℕ
  common_categories : List String
deriving Repr, DecidableEq, Inhabited

/-- A row of the monthly-trend query (grouped by month and category). -/
structure TrendRow where
  month : ℕ
  category : String
  total_spending : ℚ
  frequency : ℕ
deriving Repr, DecidableEq, Inhabited

/-- An insight object. -/
structure Insight where
  type : String
  message : String
  value : String
deriving Repr, DecidableEq, Inhabited

/-- The `dayNames` array of `generatePatternInsights`. -/
def dayNames : List String :=
  ["Sunday", "Monday", "Tuesday", "Wednesday", "Thursday", "Friday", "Saturday"]

/-- `generatePatternInsights` (lines 418–434).  The source calls
`patterns.reduce(...)` WITHOUT an initial value, which on an empty array
throws a `TypeError`; the `none` branch models that exception (caught by the
caller's `try`).  On a nonempty array, `reduce` folds from the first element,
keeping the row with the strictly larger `avg_daily_spending`; out-of-range
`dayNames[d]` interpolates as `"undefined"`. -/
def generatePatternInsights (patterns : List PatternRow)
    (_trends : List TrendRow) : Option (List Insight) :=
  match patterns with
  | [] => none
  | h :: t =>
    let best := t.foldl
      (fun m d => if d.avg_daily_spending > m.avg_daily_spending then d else m) h
    some [{ type := "pattern"
            message := "You tend to spend most on " ++
              dayNames.getD best.day_of_week "undefined"
            value := "$" ++ jsToFixed2 best.avg_daily_spending ++ " average" }]

/-- Result of `getSpendingPatterns`. -/
structure SpendingPatterns where
  weekly_patterns : List PatternRow
  monthly_trends : List TrendRow
  insights : List Insight
deriving Repr, DecidableEq, Inhabited

/-- `getSpendingPatterns` (lines 40–91): its two queries are modelled as one
`Except` carrying both row lists (a store failure in either rejects the
`await` and lands in the `catch`, which returns `null` = `none`); an
exception from `generatePatternInsights` lands in the same `catch`. -/
def getSpendingPatterns
    (q : Except Unit (List PatternRow × List TrendRow)) :
    Option SpendingPatterns :=
  match q with
  | .error _ => none
  | .ok (patterns, monthlyTrends) =>
    match generatePatternInsights patterns monthlyTrends with
    | none => none
    | some insights =>
      some { weekly_patterns := patterns
             monthly_trends := monthlyTrends
             insights := insights }

/-! ## Cash-Flow Projector (`getCashFlowProjection`, lines 333–390) -/

/-- A row of the cash-flow history query (one per month with activity,
ordered by month ascending). -/
structure CashRow where
  month : String
  monthly_income : ℚ
  monthly_expenses : ℚ
deriving Repr, DecidableEq, Inhabited

/-- A projection point. -/
structure ProjPoint where
  month : String
  projected_income : ℚ
  projected_expenses : ℚ
  net_flow : ℚ
  running_balance : ℚ
deriving Repr, DecidableEq, Inhabited

/-- Result of `getCashFlowProjection`.  `message` is present only on the
no-data path and `trends` only on the normal path, matching the two distinct
object shapes the source returns. -/
structure CashFlowResult where
  projection : List ProjPoint
  confidence : String
  message : Option String
  trends : Option (ℚ × ℚ)
deriving Repr, DecidableEq, Inhabited

/-- One iteration of the projection loop (lines 358–375) for month index
`i ∈ {1, 2, 3}`: the source draws `Math.random()` twice per iteration (income
first), so draw `k` of the whole loop is `rand (2 * (i - 1))` for income and
`rand (2 * (i - 1) + 1)` for expenses; each projected value is the average
perturbed by `(1 + (draw - 0.5) * 0.1)`. -/
def projPoint (avgIncome avgExpenses : ℚ) (rand : ℕ → ℚ)
    (futureMonth : ℕ → String) (i : ℕ) (balance : ℚ) : ProjPoint × ℚ :=
  let projectedIncome := avgIncome * (1 + (rand (2 * (i - 1)) - 1/2) * (1/10))
  let projectedExpenses :=
    avgExpenses * (1 + (rand (2 * (i - 1) + 1) - 1/2) * (1/10))
  let newBalance := balance + (projectedIncome - projectedExpenses)
  ({ month := futureMonth i
     projected_income := jsRound2 projectedIncome
     projected_expenses := jsRound2 projectedExpenses
     net_flow := jsRound2 (projectedIncome - projectedExpenses)
     running_balance := jsRound2 newBalance }, newBalance)

/-- `getCashFlowProjection` (lines 333–390), pure part.  `historicalData` is
the query result; `rand` supplies the successive `Math.random()` draws (each
in `[0,1)`) and `futureMonth i` the `toISOString().slice(0,7)` label of the
month `i` months ahead — both are environment inputs of the source, passed
explicitly. -/
def getCashFlowProjection (historicalData : List CashRow) (rand : ℕ → ℚ)
    (futureMonth : ℕ → String) : CashFlowResult :=
  if historicalData.length = 0 then
    { projection := [], confidence := "low",
      message := some "Insufficient data for projection", trends := none }
  else
    let avgIncome :=
      (historicalData.map (·.monthly_income)).sum / (historicalData.length : ℚ)
    let avgExpenses :=
      (historicalData.map (·.monthly_expenses)).sum / (historicalData.length : ℚ)
    let p1 := projPoint avgIncome avgExpenses rand futureMonth 1 0
    let p2 := projPoint avgIncome avgExpenses rand futureMonth 2 p1.2
    let p3 := projPoint avgIncome avgExpenses rand futureMonth 3 p2.2
    { projection := [p1.1, p2.1, p3.1]
      confidence := if 4 ≤ historicalData.length then "high" else "medium"
      message := none
      trends := some
        (calculateTrend (historicalData.map (·.monthly_income)),
         calculateTrend (historicalData.map (·.monthly_expenses))) }

/-! ## Analytics Orchestrator (`getAdvancedAnalytics`, lines 8–38) -/

/-- The Ledger Store as seen by one orchestrated request: the result of each
sub-computation's query (or query pair), where `.error` models the store
rejecting that query.  The health query always yields exactly one row, built
here from its three inputs by `healthMetrics`. -/
structure Store where
  spendingQ : Except Unit (List PatternRow × List TrendRow)
  predictQ : Except Unit (List PredictRow)
  healthQ : Except Unit (List Txn × List Budget × List Txn)
  anomalyQ : Except Unit (List Txn × List Txn)
  cashflowQ : Except Unit (List CashRow)

/-- The assembled `analytics` object: any section is `none` when its
sub-computation failed. -/
structure Report where
  spending_patterns : Option SpendingPatterns
  predictions : Option PredictResult
  health_score : Option HealthResult
  anomalies : Option AnomalyResult
  cash_flow_projection : Option CashFlowResult
deriving Repr, DecidableEq, Inhabited

/-- `getPredictiveInsights` with its query `try/catch` (a rejected query
lands in the `catch`, which returns `null`). -/
def getPredictiveInsightsE (q : Except Unit (List PredictRow)) :
    Option PredictResult :=
  match q with
  | .error _ => none
  | .ok rows => some (getPredictiveInsights rows)

/-- `getFinancialHealthScore` with its query `try/catch`. -/
def getFinancialHealthScoreE
    (q : Except Unit (List Txn × List Budget × List Txn)) :
    Option HealthResult :=
  match q with
  | .error _ => none
  | .ok d => some (getFinancialHealthScore (healthMetrics d.1 d.2.1 d.2.2))

/-- `getAnomalyDetection` with its query `try/catch`. -/
def getAnomalyDetectionE (q : Except Unit (List Txn × List Txn)) :
    Option AnomalyResult :=
  match q with
  | .error _ => none
  | .ok d => some (getAnomalyDetection d.1 d.2)

/-- `getCashFlowProjection` with its query `try/catch`. -/
def getCashFlowProjectionE (q : Except Unit (List CashRow)) (rand : ℕ → ℚ)
    (futureMonth : ℕ → String) : Option CashFlowResult :=
  match q with
  | .error _ => none
  | .ok rows => some (getCashFlowProjection rows rand futureMonth)

/-- `getAdvancedAnalytics` (lines 8–38): `Promise.all` over the five
sub-computations.  Because every sub-computation catches its own errors and
resolves with `null` instead of rejecting, `Promise.all` always resolves and
the 500 branch (`Except.error`) is unreachable: the orchestrator always
answers `res.json(...)` — embedded as always returning `.ok`. -/
def getAdvancedAnalytics (store : Store) (rand : ℕ → ℚ)
    (futureMonth : ℕ → String) : Except Unit Report :=
  .ok
    { spending_patterns := getSpendingPatterns store.spendingQ
      predictions := getPredictiveInsightsE store.predictQ
      health_score := getFinancialHealthScoreE store.healthQ
      anomalies := getAnomalyDetectionE store.anomalyQ
      cash_flow_projection :=
        getCashFlowProjectionE store.cashflowQ rand futureMonth }

/-- Unwrap the (always present) success report of `getAdvancedAnalytics`. -/
def okReport (e : Except Unit Report) : Report :=
  match e with
  | .ok r => r
  | .error _ => default

/-! ## Concrete inputs used by the claim theorems -/

/-- Trivial stand-ins for the environment inputs of the cash-flow projector:
a `Math.random` draw stream and a future-month labeller. -/
def rand0 : ℕ → ℚ := fun _ => 1/2

/-- Constant month labeller (the label never matters to the claims). -/
def months0 : ℕ → String := fun _ => "2026-01"

/-- Predictive-insights query result for a category whose chronological
monthly totals are `[100, 110, 120]`: the store's `ORDER BY month DESC`
delivers the most recent month first. -/
def c1Rows : List PredictRow :=
  [{ month := "2025-09", category := "Dining", monthly_spending := 120 },
   { month := "2025-08", category := "Dining", monthly_spending := 110 },
   { month := "2025-07", category := "Dining", monthly_spending := 100 }]

/-- Trailing-6-month expense transactions for the C2 witness: five
"Groceries" purchases with mean 50 and sample variance 100. -/
def c2SixM : List Txn :=
  [{ id := 1, date := 10, type := "expense", category := "Groceries",
     amount := 40, description := "a" },
   { id := 2, date := 20, type := "expense", category := "Groceries",
     amount := 60, description := "b" },
   { id := 3, date := 30, type := "expense", category := "Groceries",
     amount := 40, description := "c" },
   { id := 4, date := 40, type := "expense", category := "Groceries",
     amount := 60, description := "d" },
   { id := 5, date := 50, type := "expense", category := "Groceries",
     amount := 50, description := "e" }]

/-- Trailing-30-day expense transactions for the C2 witness: one purchase of
200 (z² = 225 > 4, so it is flagged). -/
def c2Thirty : List Txn :=
  [{ id := 9, date := 170, type := "expense", category := "Groceries",
     amount := 200, description := "f" }]

/-- Store state for the C4 counterexample: every query succeeds — the
spending-pattern queries succeed WITH ZERO ROWS (a user with no expense
transactions in the window) — except the anomaly query, which fails. -/
def c4Store : Store :=
  { spendingQ := .ok ([], [])
    predictQ := .ok []
    healthQ := .ok ([], [], [])
    anomalyQ := .error ()
    cashflowQ := .ok [] }

/-- Store state for the C4 witness: as `c4Store` but the weekly-pattern
query returns one row. -/
def c4wStore : Store :=
  { spendingQ := .ok
      ([{ day_of_week := 1, avg_daily_spending := 10, transaction_count := 2,
          common_categories := ["Food"] }], [])
    predictQ := .ok []
    healthQ := .ok ([], [], [])
    anomalyQ := .error ()
    cashflowQ := .ok [] }

/-- Trailing-3-month transactions for the C5 counterexample: income 5000 in
its own category "Salary", and 3000 of expenses spread over six distinct
expense categories. -/
def c5Txns3m : List Txn :=
  [{ id := 0, date := 0, type := "income", category := "Salary",
     amount := 5000, description := "" },
   { id := 1, date := 1, type := "expense", category := "Rent",
     amount := 500, description := "" },
   { id := 2, date := 2, type := "expense", category := "Food",
     amount := 500, description := "" },
   { id := 3, date := 3, type := "expense", category := "Transport",
     amount := 500, description := "" },
   { id := 4, date := 4, type := "expense", category := "Utilities",
     amount := 500, description := "" },
   { id := 5, date := 5, type := "expense", category := "Fun",
     amount := 500, description := "" },
   { id := 6, date := 6, type := "expense", category := "Misc",
     amount := 500, description := "" }]

/-- Two budgets for the C5 scenarios. -/
def c5Budgets : List Budget :=
  [{ category := "Rent", amount := 600 }, { category := "Food", amount := 600 }]

/-- Current-month transactions for the C5 scenarios: both budgeted
categories stay under budget. -/
def c5TxnsMonth : List Txn :=
  [{ id := 10, date := 100, type := "expense", category := "Rent",
     amount := 500, description := "" },
   { id := 11, date := 100, type := "expense", category := "Food",
     amount := 500, description := "" }]

/-- Trailing-3-month transactions for the C5 witness: identical to
`c5Txns3m` except the income transaction is categorized under "Rent", one of
the six expense categories, so the window spans exactly six distinct
categories. -/
def c5wTxns3m : List Txn :=
  [{ id := 0, date := 0, type := "income", category := "Rent",
     amount := 5000, description := "" },
   { id := 1, date := 1, type := "expense", category := "Rent",
     amount := 500, description := "" },
   { id := 2, date := 2, type := "expense", category := "Food",
     amount := 500, description := "" },
   { id := 3, date := 3, type := "expense", category := "Transport",
     amount := 500, description := "" },
   { id := 4, date := 4, type := "expense", category := "Utilities",
     amount := 500, description := "" },
   { id := 5, date := 5, type := "expense", category := "Fun",
     amount := 500, description := "" },
   { id := 6, date := 6, type := "expense", category := "Misc",
     amount := 500, description := "" }]

/-- Trailing-6-month expense transactions for the C6 scenario: five
"Shopping" purchases with mean 100 and sample standard deviation exactly 50
(sample variance 2500). -/
def c6SixM : List Txn :=
  [{ id := 1, date := 10, type := "expense", category := "Shopping",
     amount := 50, description := "a" },
   { id := 2, date := 20, type := "expense", category := "Shopping",
     amount := 150, description := "b" },
   { id := 3, date := 30, type := "expense", category := "Shopping",
     amount := 50, description := "c" },
   { id := 4, date := 40, type := "expense", category := "Shopping",
     amount := 150, description := "d" },
   { id := 5, date := 50, type := "expense", category := "Shopping",
     amount := 100, description := "e" }]

/-- Trailing-30-day expense transactions for the C6 scenario: one purchase
of 1200 against the mean-100 / std-50 "Shopping" baseline. -/
def c6Thirty : List Txn :=
  [{ id := 100, date := 170, type := "expense", category := "Shopping",
     amount := 1200, description := "Big purchase" }]

/-- Four months of cash-flow history for the C8 witness. -/
def c8Hist4 : List CashRow :=
  [{ month := "2025-06", monthly_income := 1000, monthly_expenses := 800 },
   { month := "2025-07", monthly_income := 1100, monthly_expenses := 900 },
   { month := "2025-08", monthly_income := 1000, monthly_expenses := 850 },
   { month := "2025-09", monthly_income := 1200, monthly_expenses := 950 }]

/-- Trailing-3-month transactions for the C9 witness: income 1000 but
expenses 1200 (negative savings rate) spread over eight categories. -/
def c9Txns3m : List Txn :=
  [{ id := 0, date := 0, type := "income", category := "Salary",
     amount := 1000, description := "" },
   { id := 1, date := 1, type := "expense", category := "A",
     amount := 150, description := "" },
   { id := 2, date := 2, type := "expense", category := "B",
     amount := 150, description := "" },
   { id := 3, date := 3, type := "expense", category := "C",
     amount := 150, description := "" },
   { id := 4, date := 4, type := "expense", category := "D",
     amount := 150, description := "" },
   { id := 5, date := 5, type := "expense", category := "E",
     amount := 150, description := "" },
   { id := 6, date := 6, type := "expense", category := "F",
     amount := 150, description := "" },
   { id := 7, date := 7, type := "expense", category := "G",
     amount := 150, description := "" },
   { id := 8, date := 8, type := "expense", category := "H",
     amount := 150, description := "" }]

/-- One budget for the C9 witness (kept under budget this month). -/
def c9Budgets : List Budget := [{ category := "A", amount := 500 }]

/-- The anomaly entry the C2 witness scenario produces (the 200 purchase
against the mean-50 / sample-variance-100 "Groceries" baseline). -/
def c2Entry : AnomalyEntry :=
  { id := 9, date := 170, category := "Groceries", amount := 200,
    description := "f", avg_amount := 50, z_sq := 225, z_score := some 15,
    severity := "high", deviation_percentage := "300.0" }

/-! ## Theorems -/

theorem jsRound_nonneg {q : ℚ} (h : 0 ≤ q) : 0 ≤ jsRound q :=
  Int.le_floor.mpr (by push_cast; linarith)

theorem jsRound_le {q : ℚ} {z : ℤ} (h : q < (z : ℚ) + 1/2) : jsRound q ≤ z := by
  unfold jsRound
  have h2 : ⌊q + 1/2⌋ < z + 1 := Int.floor_lt.mpr (by push_cast; linarith)
  omega

/-- **C1** (code bug): for a category whose trailing-12-month monthly expense
totals are, chronologically, `[100, 110, 120]`, the query's
`ORDER BY month DESC` delivers the series most-recent-first (`c1Rows`), and
the code therefore reports predicted_amount `100`, trend `"decreasing"`
(confidence `"high"`) — not the `120.00` / `"increasing"` the claim states.
On the chronological series itself `calculateTrend` yields the slope `10`
that the spec's worked example describes. -/
theorem C1_reversed_series_code_eval :
    (getPredictiveInsights c1Rows).next_month_predictions =
      [("Dining",
        { predicted_amount := 100, confidence := "high", trend := "decreasing" })] ∧
    calculateTrend [100, 110, 120] = 10 := by
  constructor <;> with_unfolding_all decide

/-- **C7** (code bug): for a user with no expense transactions in the window
both pattern queries succeed with zero rows, but `generatePatternInsights`
reduces an empty array without an initial value (a thrown `TypeError`,
modelled by `none`), so `getSpendingPatterns` returns `null` — not the
empty-aggregate result the claim states. -/
theorem C7_empty_window_returns_null :
    getSpendingPatterns (.ok ([], [])) = none ∧
    generatePatternInsights [] [] = none :=
  ⟨rfl, rfl⟩

theorem natSqrt484 : Nat.sqrt 484 = 22 := by with_unfolding_all decide

theorem toFixed1_1100 : toFixed1OfNonneg 1100 = "1100.0" := by
  have hfl : (⌊(1100:ℚ) * 10 + 1/2⌋ : ℤ) = 11000 := by norm_num
  simp only [toFixed1OfNonneg, hfl]
  decide

theorem c6_unusual :
    (getAnomalyDetection c6SixM c6Thirty).unusual_transactions =
      [{ id := 100, date := 170, category := "Shopping", amount := 1200,
         description := "Big purchase", avg_amount := 100, z_sq := 484,
         z_score := some 22, severity := "high",
         deviation_percentage := "1100.0" }] := by
  norm_num +decide [getAnomalyDetection, anomalyRows, sortDescBy, insertDesc,
    recentJoined, categoryStats, firstDedup, firstDedupAux, zSq, sampleVar, listMean,
    enrichAnomaly, ratSqrt, jsToFixed1, toFixed1_1100, c6SixM, c6Thirty,
    natSqrt484, AnomalyEntry.mk.injEq, List.find?, List.filterMap_cons,
    Rat.num_ofNat, Rat.den_ofNat]
  with_unfolding_all decide

theorem c6_mean_eval :
    listMean ((c6SixM.filter (fun t => t.category = "Shopping")).map (·.amount)) = 100 := by
  norm_num +decide [listMean, c6SixM]

theorem c6_var_eval :
    sampleVar ((c6SixM.filter (fun t => t.category = "Shopping")).map (·.amount)) = 2500 := by
  norm_num +decide [sampleVar, listMean, c6SixM]

/-- **C6** (counterexample): in the worked scenario (baseline mean 100,
sample standard deviation 50, observed 1200) the code's
`deviation_percentage` string is `"1100.0"` — JS `toFixed` emits no plus
sign — so it differs from the claimed `"+1100.0"`. -/
theorem C6_deviation_sign_counterexample :
    ((getAnomalyDetection c6SixM c6Thirty).unusual_transactions.map
      (·.deviation_percentage)) = ["1100.0"] ∧
    ("1100.0" : String) ≠ "+1100.0" := by
  rw [c6_unusual]
  constructor <;> decide

/-- **C6** (amended): for a recent 1200 expense against a baseline with mean
100 and standard deviation 50 (variance 2500), the anomaly record has
z-score 22 (z² = 484), severity `"high"`, and deviation_percentage
`"1100.0"` (without a plus sign). -/
theorem C6_anomaly_worked_example :
    listMean ((c6SixM.filter (fun t => t.category = "Shopping")).map (·.amount)) = 100 ∧
    sampleVar ((c6SixM.filter (fun t => t.category = "Shopping")).map (·.amount)) = 2500 ∧
    (getAnomalyDetection c6SixM c6Thirty).unusual_transactions =
      [{ id := 100, date := 170, category := "Shopping", amount := 1200,
         description := "Big purchase", avg_amount := 100, z_sq := 484,
         z_score := some 22, severity := "high",
         deviation_percentage := "1100.0" }] :=
  ⟨c6_mean_eval, c6_var_eval, c6_unusual⟩

/-- **C5** (counterexample): a ledger satisfying every premise of the claim —
trailing-3-month income 5000 and expenses 3000, 2 of 2 budgeted categories
under budget, exactly 6 distinct EXPENSE categories, income present — on
which the code returns overall_score 98, not 95: the income transaction's
own category ("Salary") makes `COUNT(DISTINCT category)` 7, and
`round(7/8 × 20) = 18` instead of 15. -/
theorem c5_row_eval :
    healthMetrics c5Txns3m c5Budgets c5TxnsMonth = ⟨5000, 3000, 7, 40, 2, 2⟩ := by
  norm_num +decide [healthMetrics, c5Txns3m, c5Budgets, c5TxnsMonth, firstDedup,
    firstDedupAux, HealthRow.mk.injEq]

theorem c5w_row_eval :
    healthMetrics c5wTxns3m c5Budgets c5TxnsMonth = ⟨5000, 3000, 6, 40, 2, 2⟩ := by
  norm_num +decide [healthMetrics, c5wTxns3m, c5Budgets, c5TxnsMonth, firstDedup,
    firstDedupAux, HealthRow.mk.injEq]

theorem C5_category_diversity_counterexample :
    (healthMetrics c5Txns3m c5Budgets c5TxnsMonth).total_income = 5000 ∧
    (healthMetrics c5Txns3m c5Budgets c5TxnsMonth).total_expenses = 3000 ∧
    (healthMetrics c5Txns3m c5Budgets c5TxnsMonth).total_budgets = 2 ∧
    (healthMetrics c5Txns3m c5Budgets c5TxnsMonth).successful_budgets = 2 ∧
    specDistinctExpenseCategories c5Txns3m = 6 ∧
    (0:ℚ) < (healthMetrics c5Txns3m c5Budgets c5TxnsMonth).total_income ∧
    (getFinancialHealthScore
      (healthMetrics c5Txns3m c5Budgets c5TxnsMonth)).overall_score = 98 ∧
    (getFinancialHealthScore
      (healthMetrics c5Txns3m c5Budgets c5TxnsMonth)).overall_score ≠ 95 := by
  refine ⟨by rw [c5_row_eval], by rw [c5_row_eval], by rw [c5_row_eval],
    by rw [c5_row_eval], by with_unfolding_all decide, ?_, ?_, ?_⟩
  · rw [c5_row_eval]; norm_num
  · rw [c5_row_eval]; with_unfolding_all decide
  · rw [c5_row_eval]; with_unfolding_all decide

/-- **C5** (amended): with trailing-3-month income 5000, expenses 3000,
2 of 2 budgets under, income present, and 6 distinct categories counted over
ALL window transactions (the code counts income categories too), the health
score is 95 with grade "A+". -/
theorem C5_health_worked_example :
    ∀ (t3 : List Txn) (b : List Budget) (tm : List Txn),
    (healthMetrics t3 b tm).total_income = 5000 →
    (healthMetrics t3 b tm).total_expenses = 3000 →
    (healthMetrics t3 b tm).category_diversity = 6 →
    (healthMetrics t3 b tm).total_budgets = 2 →
    (healthMetrics t3 b tm).successful_budgets = 2 →
    (getFinancialHealthScore (healthMetrics t3 b tm)).overall_score = 95 ∧
    (getFinancialHealthScore (healthMetrics t3 b tm)).grade = "A+" := by
  intro t3 b tm h1 h2 h3 h4 h5
  have hs : (healthMetrics t3 b tm).savings_percentage =
      (if (healthMetrics t3 b tm).total_income > 0 then
        (((healthMetrics t3 b tm).total_income -
          (healthMetrics t3 b tm).total_expenses) /
          (healthMetrics t3 b tm).total_income) * 100 else 0) := rfl
  have h6 : (healthMetrics t3 b tm).savings_percentage = 40 := by
    rw [hs, h1, h2]; norm_num
  generalize hM : healthMetrics t3 b tm = r at h1 h2 h3 h4 h5 h6 ⊢
  obtain ⟨ti, te, cd, sp, tb, sb⟩ := r
  dsimp only at h1 h2 h3 h4 h5 h6
  subst h1 h2 h3 h4 h5 h6
  with_unfolding_all decide

/-- Witness for `C5_health_worked_example`: the amended premises hold on the
concrete ledger `c5wTxns3m` (income categorized under one of the six expense
categories). -/
theorem C5_health_worked_example_witness :
    (getFinancialHealthScore
      (healthMetrics c5wTxns3m c5Budgets c5TxnsMonth)).overall_score = 95 ∧
    (getFinancialHealthScore
      (healthMetrics c5wTxns3m c5Budgets c5TxnsMonth)).grade = "A+" :=
  C5_health_worked_example c5wTxns3m c5Budgets c5TxnsMonth
    (by rw [c5w_row_eval]) (by rw [c5w_row_eval]) (by rw [c5w_row_eval])
    (by rw [c5w_row_eval]) (by rw [c5w_row_eval])

/-- **C8**: with no historical months the cash-flow projection is empty with
confidence "low" and an explanatory message; otherwise confidence is "high"
with at least 4 historical months and "medium" below that. -/
theorem C8_cashflow_confidence :
    ∀ (hist : List CashRow) (rand : ℕ → ℚ) (fm : ℕ → String),
    (hist = [] → getCashFlowProjection hist rand fm =
      { projection := [], confidence := "low",
        message := some "Insufficient data for projection", trends := none }) ∧
    (hist ≠ [] → (getCashFlowProjection hist rand fm).confidence =
      (if 4 ≤ hist.length then "high" else "medium")) := by
  intro hist rand fm
  constructor
  · intro h; subst h; rfl
  · intro h
    unfold getCashFlowProjection
    rw [if_neg (fun hh => h (List.length_eq_zero.mp hh))]

/-- Witness for `C8_cashflow_confidence` at the empty history and at a
4-month history. -/
theorem C8_cashflow_confidence_witness :
    getCashFlowProjection [] rand0 months0 =
      { projection := [], confidence := "low",
        message := some "Insufficient data for projection", trends := none } ∧
    (getCashFlowProjection c8Hist4 rand0 months0).confidence = "high" := by
  constructor
  · exact (C8_cashflow_confidence [] rand0 months0).1 rfl
  · have h := (C8_cashflow_confidence c8Hist4 rand0 months0).2 (by decide)
    rw [h]; decide

/-- **C3**: the health score is always clamped to `[0, 100]`, and grade
boundaries are inclusive at the lower bound (90 → "A+", 80 → "A", 70 → "B",
60 → "C", 50 → "D", anything below 50 → "F"). -/
theorem savingsFactor_impact_nonneg (sp : ℚ) : 0 ≤ (savingsFactor sp).impact := by
  unfold savingsFactor
  split_ifs <;> decide

theorem budgetAdherenceOf_nonneg (tb sb : ℕ) : 0 ≤ budgetAdherenceOf tb sb := by
  unfold budgetAdherenceOf
  split
  · positivity
  · norm_num

theorem budgetFactor_impact_nonneg {adh : ℚ} (h : 0 ≤ adh) :
    0 ≤ (budgetFactor adh).impact :=
  jsRound_nonneg (mul_nonneg (div_nonneg h (by norm_num)) (by norm_num))

theorem diversityFactor_impact_nonneg (cd : ℕ) :
    0 ≤ (diversityFactor cd).impact :=
  jsRound_nonneg (mul_nonneg (div_nonneg (by positivity) (by norm_num))
    (by norm_num))

theorem incomeFactor_impact_nonneg (ti : ℚ) : 0 ≤ (incomeFactor ti).impact := by
  unfold incomeFactor
  dsimp only
  split <;> decide

theorem C3_score_bounds_and_grade_boundaries :
    (∀ data : HealthRow,
      0 ≤ (getFinancialHealthScore data).overall_score ∧
      (getFinancialHealthScore data).overall_score ≤ 100) ∧
    getHealthGrade 90 = "A+" ∧ getHealthGrade 80 = "A" ∧
    getHealthGrade 70 = "B" ∧ getHealthGrade 60 = "C" ∧
    getHealthGrade 50 = "D" ∧
    (∀ s : ℤ, s < 50 → getHealthGrade s = "F") := by
  refine ⟨?_, by decide, by decide, by decide, by decide, by decide, ?_⟩
  · intro data
    obtain ⟨ti, te, cd, sp, tb, sb⟩ := data
    simp only [getFinancialHealthScore]
    constructor
    · rw [le_min_iff]
      refine ⟨?_, by norm_num⟩
      have h1 := savingsFactor_impact_nonneg sp
      have h2 := budgetFactor_impact_nonneg (budgetAdherenceOf_nonneg tb sb)
      have h3 := diversityFactor_impact_nonneg cd
      have h4 := incomeFactor_impact_nonneg ti
      omega
    · exact min_le_right _ _
  · intro s hs
    unfold getHealthGrade
    rw [if_neg (by omega), if_neg (by omega), if_neg (by omega),
      if_neg (by omega), if_neg (by omega)]

/-- Witness for `C3_score_bounds_and_grade_boundaries`: score bounds at a
concrete row and the "F" grade at 49. -/
theorem C3_score_bounds_witness :
    (0 ≤ (getFinancialHealthScore default).overall_score ∧
      (getFinancialHealthScore default).overall_score ≤ 100) ∧
    getHealthGrade 49 = "F" :=
  ⟨C3_score_bounds_and_grade_boundaries.1 default,
   C3_score_bounds_and_grade_boundaries.2.2.2.2.2.2 49 (by decide)⟩

/-- **C4** (counterexample): a store state satisfying the claim's premise —
the anomaly query fails and every other query succeeds (the pattern queries
succeed with zero rows) — on which the response is still a success with
`anomalies` null, but `spending_patterns` is null as well (the empty-input
insight failure of the pattern analyzer), not populated as the claim
states. -/
theorem C4_empty_patterns_counterexample :
    c4Store.anomalyQ = .error () ∧
    c4Store.spendingQ = .ok ([], []) ∧
    c4Store.predictQ = .ok [] ∧
    c4Store.healthQ = .ok ([], [], []) ∧
    c4Store.cashflowQ = .ok [] ∧
    getAdvancedAnalytics c4Store rand0 months0 =
      .ok (okReport (getAdvancedAnalytics c4Store rand0 months0)) ∧
    (okReport (getAdvancedAnalytics c4Store rand0 months0)).anomalies = none ∧
    (okReport (getAdvancedAnalytics c4Store rand0 months0)).spending_patterns = none :=
  ⟨rfl, rfl, rfl, rfl, rfl, rfl, rfl, rfl⟩

/-- **C4** (amended): if the anomaly query fails while all other queries
succeed AND the weekly-pattern query returns at least one row, the
orchestrator still produces a success response with `spending_patterns`,
`predictions`, `health_score` and `cash_flow_projection` populated and
`anomalies` null; no sub-computation failure aborts the others. -/
theorem C4_partial_failure_isolated :
    ∀ (s : Store) (rand : ℕ → ℚ) (fm : ℕ → String) (p : List PatternRow)
      (tr : List TrendRow) (pr : List PredictRow)
      (hd : List Txn × List Budget × List Txn) (cf : List CashRow) (e : Unit),
    s.spendingQ = .ok (p, tr) → p ≠ [] → s.predictQ = .ok pr →
    s.healthQ = .ok hd → s.cashflowQ = .ok cf → s.anomalyQ = .error e →
    getAdvancedAnalytics s rand fm =
      .ok (okReport (getAdvancedAnalytics s rand fm)) ∧
    (okReport (getAdvancedAnalytics s rand fm)).anomalies = none ∧
    (okReport (getAdvancedAnalytics s rand fm)).spending_patterns.isSome = true ∧
    (okReport (getAdvancedAnalytics s rand fm)).predictions.isSome = true ∧
    (okReport (getAdvancedAnalytics s rand fm)).health_score.isSome = true ∧
    (okReport (getAdvancedAnalytics s rand fm)).cash_flow_projection.isSome
      = true := by
  intro s rand fm p tr pr hd cf e h1 h2 h3 h4 h5 h6
  obtain ⟨sq, pq, hq, aq, cq⟩ := s
  dsimp only at h1 h3 h4 h5 h6
  subst h1 h3 h4 h5 h6
  refine ⟨rfl, rfl, ?_, rfl, rfl, rfl⟩
  cases p with
  | nil => exact absurd rfl h2
  | cons a l => rfl

/-- Witness for `C4_partial_failure_isolated` at the concrete store
`c4wStore`. -/
theorem C4_partial_failure_isolated_witness :
    getAdvancedAnalytics c4wStore rand0 months0 =
      .ok (okReport (getAdvancedAnalytics c4wStore rand0 months0)) ∧
    (okReport (getAdvancedAnalytics c4wStore rand0 months0)).anomalies = none ∧
    (okReport
      (getAdvancedAnalytics c4wStore rand0 months0)).spending_patterns.isSome
      = true ∧
    (okReport (getAdvancedAnalytics c4wStore rand0 months0)).predictions.isSome
      = true ∧
    (okReport (getAdvancedAnalytics c4wStore rand0 months0)).health_score.isSome
      = true ∧
    (okReport
      (getAdvancedAnalytics c4wStore rand0 months0)).cash_flow_projection.isSome
      = true :=
  C4_partial_failure_isolated c4wStore rand0 months0
    [{ day_of_week := 1, avg_daily_spending := 10, transaction_count := 2,
       common_categories := ["Food"] }] [] [] ([], [], []) [] ()
    rfl (by decide) rfl rfl rfl rfl

/-- **C10**: in the anomaly result, `total_anomalies` equals the number of
returned entries (hence at most 10, the `LIMIT`), and `high_severity_count`
equals the number of returned entries whose z-score exceeds 3 (squared
encoding: `z_sq > 9`), hence never exceeds `total_anomalies`. -/
theorem C10_summary_invariants :
    ∀ (sixM thirty : List Txn),
    (getAnomalyDetection sixM thirty).summary.total_anomalies =
      (getAnomalyDetection sixM thirty).unusual_transactions.length ∧
    (getAnomalyDetection sixM thirty).unusual_transactions.length ≤ 10 ∧
    (getAnomalyDetection sixM thirty).summary.high_severity_count =
      ((getAnomalyDetection sixM thirty).unusual_transactions.filter
        (fun e => 9 < e.z_sq)).length ∧
    (getAnomalyDetection sixM thirty).summary.high_severity_count ≤
      (getAnomalyDetection sixM thirty).summary.total_anomalies := by
  intro sixM thirty
  simp only [getAnomalyDetection]
  refine ⟨(List.length_map _ _).symm, ?_, ?_, ?_⟩
  · rw [List.length_map]
    exact List.length_take_le _ _
  · rw [List.filter_map, List.length_map]
    rfl
  · exact List.length_filter_le _ _

theorem mem_insertDesc {key : Txn × CatStat → ℚ} {x a : Txn × CatStat}
    {l : List (Txn × CatStat)} :
    x ∈ insertDesc key a l ↔ x = a ∨ x ∈ l := by
  induction l with
  | nil => simp [insertDesc]
  | cons y ys ih =>
    unfold insertDesc
    split
    · simp [List.mem_cons]
    · rw [List.mem_cons, ih, List.mem_cons]
      tauto

theorem mem_sortDescBy {key : Txn × CatStat → ℚ} {x : Txn × CatStat} :
    ∀ {l : List (Txn × CatStat)}, x ∈ sortDescBy key l → x ∈ l := by
  intro l
  induction l with
  | nil => simp [sortDescBy]
  | cons y ys ih =>
    intro hx
    have hx2 : x ∈ insertDesc key y (sortDescBy key ys) := hx
    rcases mem_insertDesc.mp hx2 with rfl | h
    · exact List.mem_cons_self _ _
    · exact List.mem_cons_of_mem _ (ih h)

theorem categoryStats_spec {sixM : List Txn} {s : CatStat}
    (h : s ∈ categoryStats sixM) :
    5 ≤ (sixM.filter (fun t => t.category = s.category)).length ∧
    s.var_amount =
      sampleVar ((sixM.filter (fun t => t.category = s.category)).map
        (·.amount)) := by
  unfold categoryStats at h
  rw [List.mem_filterMap] at h
  obtain ⟨c, _, hsome⟩ := h
  dsimp only at hsome
  split at hsome
  case isTrue h5 =>
    injection hsome with h'
    subst h'
    rw [List.length_map] at h5
    exact ⟨h5, rfl⟩
  case isFalse => exact absurd hsome (by simp)

theorem recentJoined_spec {sixM thirty : List Txn} {p : Txn × CatStat}
    (h : p ∈ recentJoined sixM thirty) :
    p.2 ∈ categoryStats sixM ∧ p.2.category = p.1.category := by
  unfold recentJoined at h
  rw [List.mem_filterMap] at h
  obtain ⟨t, _, hsome⟩ := h
  cases hf : (categoryStats sixM).find? (fun s => s.category = t.category) with
  | none => rw [hf] at hsome; simp at hsome
  | some s =>
    rw [hf] at hsome
    simp only [Option.map_some'] at hsome
    injection hsome with h'
    subst h'
    refine ⟨List.mem_of_find?_eq_some hf, ?_⟩
    have hp := List.find?_some hf
    simpa using hp

theorem anomalyRows_spec {sixM thirty : List Txn} {p : Txn × CatStat}
    (h : p ∈ anomalyRows sixM thirty) :
    p ∈ recentJoined sixM thirty ∧ p.2.var_amount ≠ 0 ∧ 4 < zSq p := by
  unfold anomalyRows at h
  have h2 := List.take_subset _ _ h
  have h3 := mem_sortDescBy h2
  rw [List.mem_filter] at h3
  refine ⟨h3.1, ?_⟩
  have hb := h3.2
  simpa using hb

/-- **C2**: every transaction the anomaly detector reports comes from a
category with at least 5 expense transactions in the trailing 6 months
(`sixM`, the rows the baseline CTE selects), and that category's baseline
standard deviation is nonzero (equivalently its variance, `STDDEV` squared,
is nonzero) — transactions with a zero-deviation baseline are skipped by the
`NULLIF` guard and never flagged. -/
theorem C2_anomaly_guards :
    ∀ (sixM thirty : List Txn) (e : AnomalyEntry),
    e ∈ (getAnomalyDetection sixM thirty).unusual_transactions →
    5 ≤ (sixM.filter (fun t => t.category = e.category)).length ∧
    sampleVar ((sixM.filter (fun t => t.category = e.category)).map
      (·.amount)) ≠ 0 := by
  intro sixM thirty e he
  simp only [getAnomalyDetection] at he
  rw [List.mem_map] at he
  obtain ⟨p, hp, rfl⟩ := he
  obtain ⟨hrj, hvar, _⟩ := anomalyRows_spec hp
  obtain ⟨hstat, hceq⟩ := recentJoined_spec hrj
  obtain ⟨h5, hveq⟩ := categoryStats_spec hstat
  rw [show (enrichAnomaly p).category = p.1.category from rfl, ← hceq]
  exact ⟨h5, fun h0 => hvar (hveq.trans h0)⟩

/-- Witness for `C2_anomaly_guards`: the flagged 200 purchase of the
`c2SixM`/`c2Thirty` ledger (a 5-sample "Groceries" baseline with nonzero
variance). -/
theorem C2_anomaly_guards_witness :
    5 ≤ (c2SixM.filter (fun t => t.category = c2Entry.category)).length ∧
    sampleVar ((c2SixM.filter (fun t => t.category = c2Entry.category)).map
      (·.amount)) ≠ 0 :=
  C2_anomaly_guards c2SixM c2Thirty c2Entry (by with_unfolding_all decide)

theorem emergencyRec_ne_improveRec (f : Factor) : emergencyRec ≠ improveRec f := by
  intro h
  have h2 := congrArg Recommendation.priority h
  simp [emergencyRec, improveRec] at h2

theorem emergency_mem_iff (score : ℤ) (factors : List Factor) :
    emergencyRec ∈ generateHealthRecommendations score factors ↔ score < 50 := by
  unfold generateHealthRecommendations
  rw [List.mem_append]
  by_cases hs : score < 50
  · simp [hs]
  · rw [if_neg hs]
    constructor
    · rintro (h | h)
      · exact absurd h (List.not_mem_nil _)
      · exfalso
        cases hf : factors.find? (fun f => f.status = "negative") with
        | none => rw [hf] at h; exact List.not_mem_nil _ h
        | some f =>
          rw [hf] at h
          exact emergencyRec_ne_improveRec f (List.mem_singleton.mp h)
    · intro h; exact absurd h hs

theorem improve_mem_of_find {score : ℤ} {factors : List Factor} {g : Factor}
    (hf : factors.find? (fun x => x.status = "negative") = some g) :
    improveRec g ∈ generateHealthRecommendations score factors := by
  unfold generateHealthRecommendations
  rw [hf, List.mem_append]
  exact Or.inr (List.mem_singleton_self _)

theorem savingsFactor_neg_impact {sp : ℚ}
    (h : (savingsFactor sp).status = "negative") :
    (savingsFactor sp).impact = 0 := by
  unfold savingsFactor at h ⊢
  split_ifs at h ⊢ <;> simp_all

theorem savingsFactor_zero :
    savingsFactor 0 = ⟨"Basic savings rate", 10, "neutral"⟩ := by
  unfold savingsFactor
  norm_num

theorem budgetFactor_neg_adh {adh : ℚ}
    (h : (budgetFactor adh).status = "negative") : adh < 50 := by
  unfold budgetFactor at h
  dsimp only at h
  split_ifs at h with h1 h2
  · exact absurd h (by decide)
  · exact absurd h (by decide)
  · exact not_le.mp h2

theorem budgetFactor_impact_le12 {adh : ℚ} (h : adh < 50) :
    (budgetFactor adh).impact ≤ 12 := by
  unfold budgetFactor
  dsimp only
  apply jsRound_le
  push_cast
  linarith

theorem diversityFactor_not_neg (cd : ℕ) :
    (diversityFactor cd).status ≠ "negative" := by
  unfold diversityFactor
  dsimp only
  split <;> decide

theorem diversityFactor_impact_le20 (cd : ℕ) :
    (diversityFactor cd).impact ≤ 20 := by
  unfold diversityFactor
  dsimp only
  apply jsRound_le
  have hle : ((min cd 8 : ℕ) : ℚ) ≤ 8 := by exact_mod_cast min_le_right cd 8
  push_cast at hle ⊢
  linarith

theorem incomeFactor_neg {ti : ℚ}
    (h : (incomeFactor ti).status = "negative") :
    (incomeFactor ti).impact = 0 ∧ ti ≤ 0 := by
  unfold incomeFactor at h ⊢
  dsimp only at h ⊢
  split_ifs at h ⊢ with h1
  · exact absurd h (by decide)
  · exact ⟨rfl, not_lt.mp h1⟩

theorem find_negative_min (sF bF dF iF : Factor)
    (hs0 : sF.status = "negative" → sF.impact = 0)
    (hb0 : 0 ≤ bF.impact)
    (hd : dF.status ≠ "negative")
    (hi0 : iF.status = "negative" → iF.impact = 0)
    (hExcl : iF.status = "negative" →
      sF.status ≠ "negative" ∧ bF.status ≠ "negative")
    (f : Factor) (hf : f ∈ [sF, bF, dF, iF]) (hfneg : f.status = "negative") :
    ∃ g, g ∈ [sF, bF, dF, iF] ∧ g.status = "negative" ∧
      (∀ f2, f2 ∈ [sF, bF, dF, iF] → f2.status = "negative" →
        g.impact ≤ f2.impact) ∧
      [sF, bF, dF, iF].find? (fun x => x.status = "negative") = some g := by
  by_cases h1 : sF.status = "negative"
  · refine ⟨sF, by simp, h1, ?_, ?_⟩
    · intro f2 hf2 hneg2
      rw [hs0 h1]
      simp only [List.mem_cons, List.not_mem_nil, or_false] at hf2
      rcases hf2 with rfl | rfl | rfl | rfl
      · rw [hs0 hneg2]
      · exact hb0
      · exact absurd hneg2 hd
      · rw [hi0 hneg2]
    · exact List.find?_cons_of_pos _ (by simp [h1])
  · by_cases h2 : bF.status = "negative"
    · have hiNot : iF.status ≠ "negative" := fun hi => (hExcl hi).2 h2
      refine ⟨bF, by simp, h2, ?_, ?_⟩
      · intro f2 hf2 hneg2
        simp only [List.mem_cons, List.not_mem_nil, or_false] at hf2
        rcases hf2 with rfl | rfl | rfl | rfl
        · exact absurd hneg2 h1
        · exact le_refl _
        · exact absurd hneg2 hd
        · exact absurd hneg2 hiNot
      · rw [List.find?_cons_of_neg _ (by simp [h1])]
        exact List.find?_cons_of_pos _ (by simp [h2])
    · by_cases h3 : iF.status = "negative"
      · refine ⟨iF, by simp, h3, ?_, ?_⟩
        · intro f2 hf2 hneg2
          rw [hi0 h3]
          simp only [List.mem_cons, List.not_mem_nil, or_false] at hf2
          rcases hf2 with rfl | rfl | rfl | rfl
          · exact absurd hneg2 h1
          · exact absurd hneg2 h2
          · exact absurd hneg2 hd
          · rw [hi0 hneg2]
        · rw [List.find?_cons_of_neg _ (by simp [h1]),
            List.find?_cons_of_neg _ (by simp [h2]),
            List.find?_cons_of_neg _ (by simp [hd])]
          exact List.find?_cons_of_pos _ (by simp [h3])
      · exfalso
        simp only [List.mem_cons, List.not_mem_nil, or_false] at hf
        rcases hf with rfl | rfl | rfl | rfl
        · exact h1 hfneg
        · exact h2 hfneg
        · exact hd hfneg
        · exact h3 hfneg

theorem ghs_recs_spec (row : HealthRow)
    (hlink : row.total_income ≤ 0 → row.savings_percentage = 0) :
    (emergencyRec ∈ (getFinancialHealthScore row).recommendations ↔
      (getFinancialHealthScore row).overall_score < 50) ∧
    (50 ≤ (getFinancialHealthScore row).overall_score →
      ∀ f, f ∈ (getFinancialHealthScore row).factors →
        f.status = "negative" →
        ∃ g, g ∈ (getFinancialHealthScore row).factors ∧
          g.status = "negative" ∧
          (∀ f2, f2 ∈ (getFinancialHealthScore row).factors →
            f2.status = "negative" → g.impact ≤ f2.impact) ∧
          improveRec g ∈ (getFinancialHealthScore row).recommendations) := by
  set sF := savingsFactor row.savings_percentage with hsF
  set bF := budgetFactor
    (budgetAdherenceOf row.total_budgets row.successful_budgets) with hbF
  set dF := diversityFactor row.category_diversity with hdF
  set iF := incomeFactor row.total_income with hiF
  have hfac : (getFinancialHealthScore row).factors = [sF, bF, dF, iF] := rfl
  have hrecs : (getFinancialHealthScore row).recommendations =
      generateHealthRecommendations
        (sF.impact + bF.impact + dF.impact + iF.impact) [sF, bF, dF, iF] := rfl
  have hover : (getFinancialHealthScore row).overall_score =
      min (sF.impact + bF.impact + dF.impact + iF.impact) 100 := rfl
  constructor
  · rw [hrecs, hover, emergency_mem_iff]
    omega
  · intro h50 f hf hfneg
    rw [hover] at h50
    rw [hfac] at hf
    have h50' : 50 ≤ sF.impact + bF.impact + dF.impact + iF.impact := by omega
    have hb0 : 0 ≤ bF.impact := by
      rw [hbF]; exact budgetFactor_impact_nonneg (budgetAdherenceOf_nonneg _ _)
    have hs0 : sF.status = "negative" → sF.impact = 0 := by
      rw [hsF]; exact savingsFactor_neg_impact
    have hd : dF.status ≠ "negative" := by
      rw [hdF]; exact diversityFactor_not_neg _
    have hi0 : iF.status = "negative" → iF.impact = 0 := by
      rw [hiF]; intro h; exact (incomeFactor_neg h).1
    have hExcl : iF.status = "negative" →
        sF.status ≠ "negative" ∧ bF.status ≠ "negative" := by
      intro hi
      rw [hiF] at hi
      have hti : row.total_income ≤ 0 := (incomeFactor_neg hi).2
      have hsp : row.savings_percentage = 0 := hlink hti
      constructor
      · rw [hsF, hsp, savingsFactor_zero]; decide
      · intro hbneg
        have hlt : budgetAdherenceOf row.total_budgets row.successful_budgets
            < 50 := budgetFactor_neg_adh (hbF ▸ hbneg)
        have h12 : bF.impact ≤ 12 := by
          rw [hbF]; exact budgetFactor_impact_le12 hlt
        have hiImp : iF.impact = 0 := by
          rw [hiF]; exact (incomeFactor_neg hi).1
        have hsImp : sF.impact = 10 := by rw [hsF, hsp, savingsFactor_zero]
        have hd20 : dF.impact ≤ 20 := by
          rw [hdF]; exact diversityFactor_impact_le20 _
        omega
    obtain ⟨g, hg, hgneg, hmin, hfind⟩ :=
      find_negative_min sF bF dF iF hs0 hb0 hd hi0 hExcl f hf hfneg
    refine ⟨g, by rw [hfac]; exact hg, hgneg, ?_, ?_⟩
    · intro f2 hf2 hneg2
      rw [hfac] at hf2
      exact hmin f2 hf2 hneg2
    · rw [hrecs]
      exact improve_mem_of_find hfind

/-- **C9**: over every reachable ledger state, the health-score
recommendations contain the emergency-savings recommendation exactly when
the (raw = clamped, since the maximum is exactly 100) score is below 50;
and when the score is at least 50 and some factor has negative status, the
recommendations surface a negative-status factor of minimal impact among
the negative factors (the first negative factor in source order, which the
reachable factor combinations make a lowest-scoring one). -/
theorem C9_recommendation_rules :
    ∀ (t3 : List Txn) (b : List Budget) (tm : List Txn),
    (emergencyRec ∈
        (getFinancialHealthScore (healthMetrics t3 b tm)).recommendations ↔
      (getFinancialHealthScore (healthMetrics t3 b tm)).overall_score < 50) ∧
    (50 ≤ (getFinancialHealthScore (healthMetrics t3 b tm)).overall_score →
      ∀ f, f ∈ (getFinancialHealthScore (healthMetrics t3 b tm)).factors →
        f.status = "negative" →
        ∃ g, g ∈ (getFinancialHealthScore (healthMetrics t3 b tm)).factors ∧
          g.status = "negative" ∧
          (∀ f2, f2 ∈ (getFinancialHealthScore (healthMetrics t3 b tm)).factors →
            f2.status = "negative" → g.impact ≤ f2.impact) ∧
          improveRec g ∈
            (getFinancialHealthScore (healthMetrics t3 b tm)).recommendations) := by
  intro t3 b tm
  apply ghs_recs_spec
  intro h
  have hs : (healthMetrics t3 b tm).savings_percentage =
      (if (healthMetrics t3 b tm).total_income > 0 then
        (((healthMetrics t3 b tm).total_income -
          (healthMetrics t3 b tm).total_expenses) /
          (healthMetrics t3 b tm).total_income) * 100 else 0) := rfl
  rw [hs, if_neg (not_lt.mpr h)]

theorem c9_row_eval :
    healthMetrics c9Txns3m c9Budgets [] = ⟨1000, 1200, 9, -20, 1, 1⟩ := by
  norm_num +decide [healthMetrics, c9Txns3m, c9Budgets, firstDedup, firstDedupAux,
    HealthRow.mk.injEq]

/-- Witness for `C9_recommendation_rules`: a ledger with income 1000 but
expenses 1200 (negative savings rate, the only negative factor) and score
70. -/
theorem C9_recommendation_rules_witness :
    (emergencyRec ∈
        (getFinancialHealthScore
          (healthMetrics c9Txns3m c9Budgets [])).recommendations ↔
      (getFinancialHealthScore
        (healthMetrics c9Txns3m c9Budgets [])).overall_score < 50) ∧
    (∃ g, g ∈ (getFinancialHealthScore
        (healthMetrics c9Txns3m c9Budgets [])).factors ∧
      g.status = "negative" ∧
      (∀ f2, f2 ∈ (getFinancialHealthScore
          (healthMetrics c9Txns3m c9Budgets [])).factors →
        f2.status = "negative" → g.impact ≤ f2.impact) ∧
      improveRec g ∈
        (getFinancialHealthScore
          (healthMetrics c9Txns3m c9Budgets [])).recommendations) :=
  ⟨(C9_recommendation_rules c9Txns3m c9Budgets []).1,
   (C9_recommendation_rules c9Txns3m c9Budgets []).2
     (by rw [c9_row_eval]; with_unfolding_all decide)
     ⟨"Negative savings rate", 0, "negative"⟩
     (by rw [c9_row_eval]; with_unfolding_all decide)
     (by decide)⟩
